import Mathlib

/-!
Shallow embedding of the fprintd daemon core (device.c, file_storage.c,
manager.c) used to check the natural-language specification claims.
Definitions are translated from the C source; theorems settle the claims.
-/

set_option maxRecDepth 4096

namespace Fprintd

/-- Finger slots, as in libfprint's FpFinger: the Unknown sentinel plus the
ten anatomical slots FP_FINGER_FIRST .. FP_FINGER_LAST. -/
inductive FpFinger where
  | unknown
  | leftThumb
  | leftIndex
  | leftMiddle
  | leftRing
  | leftLittle
  | rightThumb
  | rightIndex
  | rightMiddle
  | rightRing
  | rightLittle
deriving DecidableEq, Repr

/-- The FINGERS_NAMES table from device.c. -/
def FINGERS_NAMES : FpFinger → String
  | .unknown => "unknown"
  | .leftThumb => "left-thumb"
  | .leftIndex => "left-index-finger"
  | .leftMiddle => "left-middle-finger"
  | .leftRing => "left-ring-finger"
  | .leftLittle => "left-little-finger"
  | .rightThumb => "right-thumb"
  | .rightIndex => "right-index-finger"
  | .rightMiddle => "right-middle-finger"
  | .rightRing => "right-ring-finger"
  | .rightLittle => "right-little-finger"

/-- The valid slots FP_FINGER_FIRST .. FP_FINGER_LAST, in enumeration order. -/
def validFingers : List FpFinger :=
  [.leftThumb, .leftIndex, .leftMiddle, .leftRing, .leftLittle,
   .rightThumb, .rightIndex, .rightMiddle, .rightRing, .rightLittle]

/-- The ten anatomical slot names (serializations of the valid slots). -/
def validFingerNames : List String := validFingers.map FINGERS_NAMES

/-- fp_finger_to_name from device.c: Unknown serializes as "any", a valid
slot as its FINGERS_NAMES entry. -/
def fp_finger_to_name (finger : FpFinger) : String :=
  if finger = .unknown then "any" else FINGERS_NAMES finger

/-- finger_name_to_fp_finger from device.c: NULL (modeled as none), the
empty string and "any" map to Unknown; a string matching one of the
FINGERS_NAMES of FP_FINGER_FIRST..FP_FINGER_LAST maps to that slot; any
other string falls through to Unknown. -/
def finger_name_to_fp_finger : Option String → FpFinger
  | none => .unknown
  | some s =>
      if s = "" then .unknown
      else if s = "any" then .unknown
      else
        match validFingers.find? (fun f => FINGERS_NAMES f = s) with
        | some f => f
        | none => .unknown

/-- The error kinds of the fprintd error domain (fprintd.h). -/
inductive FprintError where
  | claimDevice
  | alreadyInUse
  | internalError
  | permissionDenied
  | noEnrolledPrints
  | fingerAlreadyEnrolled
  | noActionInProgress
  | invalidFingername
  | noSuchDevice
  | printsNotDeleted
  | printsNotDeletedFromDevice
deriving DecidableEq, Repr

/-- The per-device action enum FprintDeviceAction from device.c. -/
inductive FprintDeviceAction where
  | actionNone
  | identify
  | verify
  | enroll
  | actionOpen
  | actionClose
  | delete
deriving DecidableEq, Repr

/-- The claim-state request enum FprintDeviceClaimState from device.c. -/
inductive FprintDeviceClaimState where
  | claimed
  | unclaimed
  | autoClaim
  | anytime
deriving DecidableEq, Repr

/-- The SessionData record from device.c (without the ref count, which is a
memory-management artifact): the claiming sender, the acting username,
whether an in-flight method invocation is held, and the
verify-status-reported flag. -/
structure SessionData where
  sender : String
  username : String
  invocation : Bool
  verify_status_reported : Bool
deriving DecidableEq, Repr

/-- get_claim_state_for_invocation from device.c: the required claim state
is derived from the invoked method's name. -/
def get_claim_state_for_invocation (method_name : String) : FprintDeviceClaimState :=
  if method_name = "Claim" then .unclaimed
  else if method_name = "DeleteEnrolledFingers" then .autoClaim
  else if method_name = "ListEnrolledFingers" then .anytime
  else .claimed

/-- The claim-state precheck _fprint_device_check_claimed from device.c.
Returns none when the check passes and the error it raises otherwise.
AutoClaim degrades to Claimed when a session exists and to Unclaimed
otherwise; Unclaimed fails with AlreadyInUse whenever any session exists;
Claimed fails with ClaimDevice when there is no session, and with
AlreadyInUse when the sender differs from the session's sender or the
session already holds an in-flight invocation. -/
def fprint_device_check_claimed (session : Option SessionData)
    (method_name sender : String) : Option FprintError :=
  let requested := get_claim_state_for_invocation method_name
  if requested = .anytime then none
  else
    let requested :=
      if requested = .autoClaim then
        match session with
        | some _ => FprintDeviceClaimState.claimed
        | none => FprintDeviceClaimState.unclaimed
      else requested
    if requested = .unclaimed then
      match session with
      | none => none
      | some _ => some .alreadyInUse
    else
      match session with
      | none => some .claimDevice
      | some s =>
          if sender ≠ s.sender ∨ s.invocation then some .alreadyInUse
          else none

/-- can_start_action from device.c: an action may start only when the
current action is None; any other current action raises AlreadyInUse. -/
def can_start_action (current : FprintDeviceAction) : Option FprintError :=
  match current with
  | .actionNone => none
  | _ => some .alreadyInUse

/-- can_stop_action from device.c: Verify and Identify stop each other;
other actions must match exactly. Stopping succeeds when the action
matches and no cancel invocation is pending; a pending action that does
not satisfy this raises AlreadyInUse, and an idle device raises
NoActionInProgress. -/
def can_stop_action (current requested : FprintDeviceAction)
    (cancel_invocation_pending : Bool) : Option FprintError :=
  let action_matches : Bool :=
    match current with
    | .identify | .verify => decide (requested = .verify) || decide (requested = .identify)
    | _ => decide (current = requested)
  if action_matches && !cancel_invocation_pending then none
  else if decide (current ≠ .actionNone) || action_matches then some .alreadyInUse
  else some .noActionInProgress

/-- A print template: driver name, device-id string, username, finger slot,
enrollment date reduced to its Julian day (0 stands for a missing or
invalid date, as in garbage_collect_sort), the stable per-print random
sort key (the "sort-rand" object datum, assigned once and nonzero), and an
opaque payload standing for the driver-defined template data. Equality of
the whole structure models fp_print_equal. -/
structure FpPrint where
  driver : String
  device_id : String
  username : String
  finger : FpFinger
  julian : Nat
  sort_rand : Int
  payload : Nat
deriving DecidableEq, Repr

/-- The device capabilities and driver-side behavior verify/enroll/delete
depend on: identity strings, the feature flags used by the embedded code
paths, and the outcome of fp_device_delete_print_sync per print. -/
structure FpDeviceModel where
  driver : String
  device_id : String
  has_storage : Bool
  has_storage_list : Bool
  has_identify : Bool
  delete_ok : FpPrint → Bool

/-- The template store as seen through the storage dispatch table: the set
of discovered finger slots per user, the print loaded for a slot and user,
and the return code of print_data_delete. -/
structure StoreModel where
  prints_of : String → List FpFinger
  load : FpFinger → String → Option FpPrint
  delete_code : FpFinger → String → Int

/-- The store after a successful print_data_delete of (finger, user): the
slot disappears from discovery and its print no longer loads. -/
def StoreModel.afterDelete (st : StoreModel) (finger : FpFinger) (user : String) :
    StoreModel where
  prints_of := fun u => if u = user then (st.prints_of u).filter (fun g => g ≠ finger)
                        else st.prints_of u
  load := fun g u => if u = user ∧ g = finger then none else st.load g u
  delete_code := st.delete_code

/-- load_user_prints from device.c: discover the user's slots and load each
print, skipping slots whose load produces no print. -/
def load_user_prints (st : StoreModel) (username : String) : List FpPrint :=
  (st.prints_of username).filterMap (fun f => st.load f username)

/-- user_has_print_enrolled from device.c: with the Unknown sentinel the
user must have some discovered print; with a concrete finger that slot
must be among the discovered prints. -/
def user_has_print_enrolled (st : StoreModel) (user : String) (finger : FpFinger) : Bool :=
  let prints := st.prints_of user
  if finger = .unknown then decide (prints ≠ []) else decide (finger ∈ prints)

/-- An observable deletion performed by delete_enrolled_fingers: a
device-side fp_device_delete_print_sync or a store-side
print_data_delete. -/
inductive DeleteEffect where
  | deviceDelete (p : FpPrint)
  | storeDelete (finger : FpFinger) (user : String)
deriving DecidableEq, Repr

/-- The device-side loop of delete_enrolled_fingers: for each discovered
slot, load the print; skip it when a concrete finger was requested and the
print's finger differs; otherwise delete it from the device, keeping the
first device error (PrintsNotDeletedFromDevice). -/
def delete_device_prints (dev : FpDeviceModel) (st : StoreModel) (user : String)
    (finger : FpFinger) : List FpFinger → Option FprintError × List DeleteEffect
  | [] => (none, [])
  | f :: rest =>
      match st.load f user with
      | none => delete_device_prints dev st user finger rest
      | some print =>
          if finger ≠ .unknown ∧ print.finger ≠ finger then
            delete_device_prints dev st user finger rest
          else
            let errHere : Option FprintError :=
              if dev.delete_ok print then none else some .printsNotDeletedFromDevice
            let (errRest, effs) := delete_device_prints dev st user finger rest
            (errHere <|> errRest, .deviceDelete print :: effs)

/-- The store-side loop of delete_enrolled_fingers for the Unknown case:
print_data_delete every slot FP_FINGER_FIRST..FP_FINGER_LAST, keeping the
first PrintsNotDeleted error raised when a failed delete leaves the slot
still enrolled, and threading the store state through the successful
deletes. -/
def delete_store_prints (user : String) :
    StoreModel → List FpFinger → Option FprintError × StoreModel × List DeleteEffect
  | st, [] => (none, st, [])
  | st, f :: rest =>
      let r := st.delete_code f user
      let st1 := if r = 0 then st.afterDelete f user else st
      let errHere : Option FprintError :=
        if r ≠ 0 ∧ user_has_print_enrolled st1 user f then some .printsNotDeleted else none
      let (errRest, stF, effs) := delete_store_prints user st1 rest
      (errHere <|> errRest, stF, .storeDelete f user :: effs)

/-- delete_enrolled_fingers from device.c. When the user has no matching
enrolled print it fails with NoEnrolledPrints without touching anything.
Otherwise, if the device supports storage, every loaded print for the user
matching the request is deleted from the device (first failure recorded as
a low-priority PrintsNotDeletedFromDevice error); then the host store
entries are deleted: the single slot for a concrete finger (failing with
PrintsNotDeleted when the slot is still enrolled after a failed delete) or
all ten slots for Unknown. Store-side errors outrank the device error.
The result carries the error (none on success), the resulting store, and
the list of performed deletions. -/
def delete_enrolled_fingers (dev : FpDeviceModel) (st : StoreModel) (user : String)
    (finger : FpFinger) : Option FprintError × StoreModel × List DeleteEffect :=
  if ¬user_has_print_enrolled st user finger then
    (some .noEnrolledPrints, st, [])
  else
    let (devErr, devEffs) :=
      if dev.has_storage then delete_device_prints dev st user finger (st.prints_of user)
      else (none, [])
    if finger ≠ .unknown then
      let r := st.delete_code finger user
      let st1 := if r = 0 then st.afterDelete finger user else st
      if r ≠ 0 ∧ user_has_print_enrolled st1 user finger then
        (some .printsNotDeleted, st1, devEffs ++ [.storeDelete finger user])
      else
        (devErr, st1, devEffs ++ [.storeDelete finger user])
    else
      let (storeErr, stF, storeEffs) := delete_store_prints user st validFingers
      match storeErr with
      | some e => (some e, stF, devEffs ++ storeEffs)
      | none => (devErr, stF, devEffs ++ storeEffs)

/-- The observable outcome of fprint_device_verify_start: an error reply,
or the started device operation together with the finger name emitted by
the VerifyFingerSelected signal. -/
inductive VerifyStartOutcome where
  | failure (e : FprintError)
  | identifyStarted (gallery : List FpPrint) (selected : String)
  | verifyStarted (target : FpPrint) (selected : String)
deriving DecidableEq, Repr

/-- fprint_device_verify_start from device.c. After the claim-state
precheck and can_start_action: a finger that parses to Unknown loads the
per-user gallery; an empty gallery fails with NoEnrolledPrints; a
singleton gallery re-targets the request at that print's finger; if the
finger is still Unknown and the device supports identify, an Identify
starts over the whole gallery (VerifyFingerSelected reports "any");
otherwise a Verify starts against the gallery's first print (reporting its
finger), or, for a concrete requested finger, against the loaded print for
that slot, failing with NoEnrolledPrints when none loads. -/
def fprint_device_verify_start (session : Option SessionData) (sender : String)
    (current_action : FprintDeviceAction) (dev : FpDeviceModel) (st : StoreModel)
    (finger_name : Option String) : VerifyStartOutcome :=
  match fprint_device_check_claimed session "VerifyStart" sender with
  | some e => .failure e
  | none =>
      match session with
      | none => .failure .claimDevice
      | some sess =>
          match can_start_action current_action with
          | some e => .failure e
          | none =>
              let finger := finger_name_to_fp_finger finger_name
              if finger = .unknown then
                match load_user_prints st sess.username with
                | [] => .failure .noEnrolledPrints
                | p :: rest =>
                    let finger1 := if rest = [] then p.finger else FpFinger.unknown
                    if dev.has_identify ∧ finger1 = .unknown then
                      .identifyStarted (p :: rest) (fp_finger_to_name .unknown)
                    else
                      .verifyStarted p (fp_finger_to_name p.finger)
              else
                match st.load finger sess.username with
                | none => .failure .noEnrolledPrints
                | some print => .verifyStarted print (fp_finger_to_name finger)

/-- The outcome of the synchronous prefix of fprint_device_enroll_start:
an error reply, or the enrollment pipeline started for the parsed finger
(the asynchronous capture pipeline itself is outside this fragment). -/
inductive EnrollStartOutcome where
  | failure (e : FprintError)
  | started (finger : FpFinger)
deriving DecidableEq, Repr

/-- fprint_device_enroll_start from device.c, up to starting the pipeline:
claim-state precheck; a finger name parsing to Unknown fails with
InvalidFingername; then can_start_action; an existing print for
(user, finger) is deleted first via delete_enrolled_fingers, whose failure
is returned to the caller; otherwise the pipeline starts. -/
def fprint_device_enroll_start (session : Option SessionData) (sender : String)
    (current_action : FprintDeviceAction) (dev : FpDeviceModel) (st : StoreModel)
    (finger_name : Option String) : EnrollStartOutcome :=
  match fprint_device_check_claimed session "EnrollStart" sender with
  | some e => .failure e
  | none =>
      let finger := finger_name_to_fp_finger finger_name
      if finger = .unknown then .failure .invalidFingername
      else
        match session with
        | none => .failure .claimDevice
        | some sess =>
            let existing := st.load finger sess.username
            match can_start_action current_action with
            | some e => .failure e
            | none =>
                match existing with
                | some _ =>
                    match delete_enrolled_fingers dev st sess.username finger with
                    | (some e, _, _) => .failure e
                    | (none, _, _) => .started finger
                | none => .started finger

/-- The outcome of a delete method call: an error reply or completion,
together with the deletions performed. -/
inductive DeleteOutcome where
  | failure (e : FprintError) (effects : List DeleteEffect)
  | completed (effects : List DeleteEffect)
deriving DecidableEq, Repr

/-- fprint_device_delete_enrolled_finger from device.c: claim-state
precheck; a finger name parsing to Unknown fails with InvalidFingername;
then can_start_action; then delete_enrolled_fingers for the session user
and the parsed finger. -/
def fprint_device_delete_enrolled_finger (session : Option SessionData) (sender : String)
    (current_action : FprintDeviceAction) (dev : FpDeviceModel) (st : StoreModel)
    (finger_name : Option String) : DeleteOutcome :=
  match fprint_device_check_claimed session "DeleteEnrolledFinger" sender with
  | some e => .failure e []
  | none =>
      let finger := finger_name_to_fp_finger finger_name
      if finger = .unknown then .failure .invalidFingername []
      else
        match can_start_action current_action with
        | some e => .failure e []
        | none =>
            match session with
            | none => .failure .claimDevice []
            | some sess =>
                match delete_enrolled_fingers dev st sess.username finger with
                | (some e, _, effs) => .failure e effs
                | (none, _, effs) => .completed effs

/-- garbage_collect_sort from device.c: a qsort-style comparator over
prints. Julian day 0 stands for a missing or invalid enrollment date.
When the Julian days differ the comparator returns julian_b - julian_a;
ties are broken on the stable per-print random keys as rand_b - rand_a.
A negative result places a before b in the sorted array. -/
def garbage_collect_sort (a b : FpPrint) : Int :=
  if a.julian ≠ b.julian then (b.julian : Int) - (a.julian : Int)
  else b.sort_rand - a.sort_rand

/-- Insertion of a print into a list already sorted by
garbage_collect_sort (ascending comparator order, as qsort produces). -/
def gc_insert (p : FpPrint) : List FpPrint → List FpPrint
  | [] => [p]
  | q :: rest =>
      if garbage_collect_sort p q ≤ 0 then p :: q :: rest
      else q :: gc_insert p rest

/-- g_ptr_array_sort with garbage_collect_sort: sorts ascending with
respect to the comparator. -/
def gc_sort : List FpPrint → List FpPrint
  | [] => []
  | p :: rest => gc_insert p (gc_sort rest)

/-- Removal of the first element equal to the given print, as
g_ptr_array_find_with_equal_func followed by g_ptr_array_remove_index. -/
def remove_first_equal (hp : FpPrint) : List FpPrint → List FpPrint
  | [] => []
  | q :: rest => if q = hp then rest else q :: remove_first_equal hp rest

/-- The host-filter loop of try_delete_print: for each host print, remove
the first device print equal to it (when one exists). -/
def filter_host_prints (device_prints : List FpPrint) (host_prints : List FpPrint) :
    List FpPrint :=
  host_prints.foldl (fun acc hp => remove_first_equal hp acc) device_prints

/-- The outcome of try_delete_print: whether a garbage-collection delete
was attempted (and on which print) and the function's boolean result. -/
structure TryDeleteResult where
  attempted : Option FpPrint
  success : Bool
deriving DecidableEq, Repr

/-- try_delete_print from device.c: list the device-resident prints (a
listing failure returns FALSE), sort them with garbage_collect_sort,
remove from the sorted list the first print equal to each host print, and
return FALSE when nothing remains; otherwise synchronously delete the
first remaining print, returning TRUE exactly when the delete succeeds. -/
def try_delete_print (dev : FpDeviceModel) (list_ok : Bool)
    (device_prints : List FpPrint) (host_prints : List FpPrint) : TryDeleteResult :=
  if ¬list_ok then ⟨none, false⟩
  else
    let sorted := gc_sort device_prints
    let remaining := filter_host_prints sorted host_prints
    match remaining with
    | [] => ⟨none, false⟩
    | p :: _ => ⟨some p, dev.delete_ok p⟩

/-- The fixed default storage root FILE_STORAGE_PATH from file_storage.c. -/
def FILE_STORAGE_PATH : String := "/var/lib/fprint"

/-- g_strsplit with separator ":" over the character list: splitting the
empty string gives one empty element, and every colon starts a new
element. -/
def strsplit_colon_chars : List Char → List (List Char)
  | [] => [[]]
  | c :: rest =>
      if c = ':' then [] :: strsplit_colon_chars rest
      else
        match strsplit_colon_chars rest with
        | [] => [[c]]
        | e :: es => (c :: e) :: es

/-- g_strsplit (path, ":", -1) as a list of strings. -/
def strsplit_colon (s : String) : List String :=
  (strsplit_colon_chars s.data).map String.mk

/-- strchr (path, a colon): whether the string contains a colon. -/
def strchr_colon (s : String) : Bool := decide (':' ∈ s.data)

/-- get_storage_path from file_storage.c, as a function of the
STATE_DIRECTORY environment value (none when unset). When the value
contains a colon, the first element of the colon-split list is taken,
whether or not it is empty; a colon-free non-empty value is taken as is;
otherwise the fixed default path is used. -/
def get_storage_path (state_directory : Option String) : String :=
  match state_directory with
  | none => FILE_STORAGE_PATH
  | some path =>
      if strchr_colon path then
        match strsplit_colon path with
        | [] => FILE_STORAGE_PATH
        | e :: _ => e
      else if path ≠ "" then path
      else FILE_STORAGE_PATH

/-- The spec's words for the storage-root choice ("pick the first
non-empty entry" of the colon-separated list), written for comparison
with get_storage_path. -/
def get_storage_path_spec (state_directory : Option String) : String :=
  match state_directory with
  | none => FILE_STORAGE_PATH
  | some path =>
      match (strsplit_colon path).find? (fun e => decide (e ≠ "")) with
      | some e => e
      | none => FILE_STORAGE_PATH

/-- The amended description of get_storage_path: with a colon present the
first entry is taken even when it is empty; a colon-free value is used
when non-empty; everything else falls back to the default. -/
def get_storage_path_amended (state_directory : Option String) : String :=
  match state_directory with
  | none => FILE_STORAGE_PATH
  | some path =>
      if strchr_colon path then (strsplit_colon path).headD FILE_STORAGE_PATH
      else if path = "" then FILE_STORAGE_PATH
      else path

/-- The identity tuple addressing one stored print file:
root/user/driver/device-id/<hex-finger> in the reference backend. -/
structure PrintPath where
  username : String
  driver : String
  device_id : String
  finger : FpFinger
deriving DecidableEq, Repr

/-- Error numbers used by file_storage.c (Linux values). -/
def ENOENT : Int := 2

/-- EIO error number. -/
def EIOErrno : Int := 5

/-- EINVAL error number. -/
def EINVAL : Int := 22

/-- fp_print_compatible: the print belongs to this driver and device. -/
def fp_print_compatible (p : FpPrint) (dev : FpDeviceModel) : Bool :=
  p.driver = dev.driver && p.device_id = dev.device_id

/-- load_from_file from file_storage.c over a file system modeled as a
partial map from print paths to raw contents, with fp_print_deserialize
modeled as a partial decoding function: a missing file yields -ENOENT, a
file that does not deserialize yields -EIO, otherwise the print and 0. -/
def load_from_file (fs : PrintPath → Option (List Nat))
    (deserialize : List Nat → Option FpPrint) (path : PrintPath) :
    Int × Option FpPrint :=
  match fs path with
  | none => (-ENOENT, none)
  | some contents =>
      match deserialize contents with
      | none => (-EIOErrno, none)
      | some p => (0, some p)

/-- file_storage_print_data_load from file_storage.c: build the path for
(user, driver, device-id, finger), load the file, and reject with -EINVAL
a deserialized print whose finger differs from the requested one, whose
username differs from the requested user, or which is not compatible with
the device; only then is the print returned with result 0. -/
def file_storage_print_data_load (fs : PrintPath → Option (List Nat))
    (deserialize : List Nat → Option FpPrint) (dev : FpDeviceModel)
    (finger : FpFinger) (username : String) : Int × Option FpPrint :=
  let path : PrintPath := ⟨username, dev.driver, dev.device_id, finger⟩
  match load_from_file fs deserialize path with
  | (r, none) => (r, none)
  | (_, some newPrint) =>
      if newPrint.finger ≠ finger then (-EINVAL, none)
      else if newPrint.username ≠ username then (-EINVAL, none)
      else if ¬fp_print_compatible newPrint dev then (-EINVAL, none)
      else (0, some newPrint)

/-- fprint_manager_get_default_device from manager.c: with at least one
exported device object the path of the last object in the object-manager
list is returned; with none the call fails with NoSuchDevice. -/
def fprint_manager_get_default_device (objects : List String) :
    Except FprintError String :=
  match objects.getLast? with
  | some path => .ok path
  | none => .error .noSuchDevice

/-- The GError values distinguished by the verify/identify pipeline: the
FP_DEVICE_RETRY domain (with the codes the name mapping distinguishes),
G_IO_ERROR_CANCELLED, and the FP_DEVICE_ERROR codes the code matches on,
with a catch-all for everything else. -/
inductive GErr where
  | retryTooShort
  | retryCenterFinger
  | retryRemoveFinger
  | retryGeneral
  | cancelled
  | dataNotFound
  | dataFull
  | proto
  | otherError
deriving DecidableEq, Repr

/-- Whether the error belongs to the FP_DEVICE_RETRY domain. -/
def GErr.isRetry : GErr → Bool
  | .retryTooShort | .retryCenterFinger | .retryRemoveFinger | .retryGeneral => true
  | _ => false

/-- verify_result_to_name from device.c. -/
def verify_result_to_name (match_ : Bool) (error : Option GErr) : String :=
  match error with
  | none => if match_ then "verify-match" else "verify-no-match"
  | some err =>
      if err.isRetry then
        match err with
        | .retryTooShort => "verify-swipe-too-short"
        | .retryCenterFinger => "verify-finger-not-centered"
        | .retryRemoveFinger => "verify-remove-and-retry"
        | _ => "verify-retry-scan"
      else
        match err with
        | .proto => "verify-disconnected"
        | .cancelled => "verify-no-match"
        | .dataNotFound => "verify-no-match"
        | _ => "verify-unknown-error"

/-- Whether a status report is final: done = (error == NULL ||
error->domain != FP_DEVICE_RETRY). -/
def report_done (error : Option GErr) : Bool :=
  match error with
  | none => true
  | some err => !err.isRetry

/-- The observable outcome of one report_verify_status call: the new
verify-status-reported flag, the VerifyStatus signal emitted (if any), and
whether the "already reported" warning was logged. -/
structure ReportResult where
  reported : Bool
  emitted : Option (String × Bool)
  warned : Bool
deriving DecidableEq, Repr

/-- report_verify_status from device.c: a final report arriving when the
flag is already set emits nothing (warning unless the error is a
cancellation, which is discarded silently); otherwise the signal is
emitted with its done flag, and a final report latches the flag. -/
def report_verify_status (reported : Bool) (match_ : Bool) (error : Option GErr) :
    ReportResult :=
  let done := report_done error
  let result := verify_result_to_name match_ error
  if done && reported then
    ⟨reported, none, decide (error ≠ some .cancelled)⟩
  else
    ⟨reported || done, some (result, done), false⟩

/-- The flag update of stoppable_action_completed from device.c: the
verify-status-reported flag is cleared exactly when the completion either
answers a pending stop invocation or follows an observed cancellation;
otherwise it is left alone. -/
def stoppable_action_completed_flag (reported : Bool)
    (cancel_invocation_pending cancelled : Bool) : Bool :=
  if cancel_invocation_pending then false
  else if cancelled then false
  else reported

/-- A run of report_verify_status calls within one operation (no
completion in between): returns the final flag and the emitted signals in
order. -/
def run_reports : Bool → List (Bool × Option GErr) → Bool × List (String × Bool)
  | reported, [] => (reported, [])
  | reported, (m, e) :: rest =>
      let r := report_verify_status reported m e
      let (repF, sigs) := run_reports r.reported rest
      (repF, r.emitted.toList ++ sigs)

/-- The number of done=true signals in a signal list. -/
def count_done (sigs : List (String × Bool)) : Nat :=
  sigs.countP (fun sg => sg.2)

/-- One main-loop iteration observed by the VerifyStop settle-window wait:
either the device operation completes (the non-retry verify_cb path runs),
or the 1-second settle timer fires, or something unrelated happens. -/
inductive SettleEvent where
  | deviceCompleted
  | timeoutFired
  | unrelated
deriving DecidableEq, Repr

/-- The device/loop state the settle-window wait of
fprint_device_verify_stop observes: whether verify_has_completed holds,
whether the settle timer is still pending, whether the stop invocation is
still parked in current_cancel_invocation, and whether the stop reply has
already been sent (by stoppable_action_completed). -/
structure SettleState where
  completed : Bool
  timeoutActive : Bool
  cancelInvocationPending : Bool
  stopReplied : Bool
deriving DecidableEq, Repr

/-- The effect of one settle-window main-loop iteration. A device
completion runs verify_cb: it reaches stoppable_action_completed, which,
with the stop invocation parked, replies to VerifyStop and consumes the
invocation; the operation is then complete either way. A timer expiry
clears the timeout id. Unrelated events change nothing. -/
def settle_step (s : SettleState) : SettleEvent → SettleState
  | .deviceCompleted =>
      if s.cancelInvocationPending then
        { completed := true, timeoutActive := s.timeoutActive,
          cancelInvocationPending := false, stopReplied := true }
      else
        { s with completed := true }
  | .timeoutFired => { s with timeoutActive := false }
  | .unrelated => s

/-- The settle-window wait loop: iterate the main loop while the settle
timer is pending and the operation has not completed. The events list
supplies the loop iterations; none models a schedule that never settles
the condition (excluded in the theorems by requiring a relevant event). -/
def settle_loop : SettleState → List SettleEvent → Option SettleState
  | s, [] => if s.timeoutActive && !s.completed then none else some s
  | s, e :: rest =>
      if s.timeoutActive && !s.completed then settle_loop (settle_step s e) rest
      else some s

/-- Seconds the settle window waits for the device:
VERIFY_STOP_DEVICE_WAIT from device.c. -/
def VERIFY_STOP_DEVICE_WAIT : Nat := 1

/-- The first settle-window event that is not an unrelated iteration:
whichever of the device completion and the settle-timer expiry comes
first in the schedule. -/
def first_relevant (events : List SettleEvent) : Option SettleEvent :=
  events.find? (fun e => decide (e ≠ .unrelated))

/-- The observable outcome of fprint_device_verify_stop: an error reply;
a success reply sent during the settle window without cancelling
(verify_cb settled the operation); or a cancellation of the in-flight
operation whose stop reply is sent when the cancellation is observed by
stoppable_action_completed. stoppedDirectly covers the path where the
operation had already completed (or no final status was pending), in which
case stoppable_action_stop runs immediately. none stands for a schedule
in which neither the device nor the settle timer ever fires. -/
inductive VerifyStopOutcome where
  | failure (e : FprintError)
  | repliedWithoutCancel
  | cancelledReplyDeferred
  | stoppedDirectly
deriving DecidableEq, Repr

/-- fprint_device_verify_stop from device.c: claim-state precheck, then
can_stop_action for Verify; if the operation has not completed and a final
status was already reported, park the invocation, start the
VERIFY_STOP_DEVICE_WAIT timer and iterate the main loop while the timer is
pending and the operation incomplete; if the wait consumed the invocation
(the device settled and stoppable_action_completed replied), return
without cancelling; otherwise un-park the invocation and fall through to
stoppable_action_stop, which cancels the in-flight operation (the reply
follows the observed cancellation). Without a prior final report, or with
the operation already completed, stoppable_action_stop runs directly. -/
def fprint_device_verify_stop (session : Option SessionData) (sender : String)
    (current_action : FprintDeviceAction) (cancel_invocation_pending : Bool)
    (completed0 : Bool) (events : List SettleEvent) : Option VerifyStopOutcome :=
  match fprint_device_check_claimed session "VerifyStop" sender with
  | some e => some (.failure e)
  | none =>
      match can_stop_action current_action .verify cancel_invocation_pending with
      | some e => some (.failure e)
      | none =>
          match session with
          | none => some (.failure .claimDevice)
          | some sess =>
              if ¬completed0 then
                if sess.verify_status_reported then
                  let s0 : SettleState :=
                    { completed := completed0, timeoutActive := true,
                      cancelInvocationPending := true, stopReplied := false }
                  match settle_loop s0 events with
                  | none => none
                  | some s =>
                      if ¬s.cancelInvocationPending then some .repliedWithoutCancel
                      else some .cancelledReplyDeferred
                else some .cancelledReplyDeferred
              else some .stoppedDirectly

/-- A print enrolled on Julian day 100 (the older one). -/
def gcPrintOlder : FpPrint := ⟨"drv", "dev0", "alice", .leftThumb, 100, 7, 1⟩

/-- A print enrolled on Julian day 200 (the newer one). -/
def gcPrintNewer : FpPrint := ⟨"drv", "dev0", "bob", .rightThumb, 200, 9, 2⟩

/-- A device with storage, print listing and identify support whose
deletes succeed. -/
def gcDevice : FpDeviceModel := ⟨"drv", "dev0", true, true, true, fun _ => true⟩

/-- A session claimed by sender ":1.7" for user "alice" with no in-flight
invocation. -/
def aliceSession : SessionData := ⟨":1.7", "alice", false, false⟩

/-- The single enrolled print of user "alice": left thumb. -/
def singlePrint : FpPrint := ⟨"drv", "dev0", "alice", .leftThumb, 150, 3, 5⟩

/-- A store in which "alice" has exactly the left-thumb print. -/
def singlePrintStore : StoreModel :=
  ⟨fun u => if u = "alice" then [.leftThumb] else [],
   fun f u => if u = "alice" ∧ f = FpFinger.leftThumb then some singlePrint else none,
   fun _ _ => 0⟩

/-- A second enrolled print used for the two-print gallery. -/
def secondPrint : FpPrint := ⟨"drv", "dev0", "alice", .rightIndex, 151, 4, 6⟩

/-- A store in which "alice" has the left-thumb and right-index prints. -/
def twoPrintStore : StoreModel :=
  ⟨fun u => if u = "alice" then [.leftThumb, .rightIndex] else [],
   fun f u =>
     if u = "alice" ∧ f = FpFinger.leftThumb then some singlePrint
     else if u = "alice" ∧ f = FpFinger.rightIndex then some secondPrint
     else none,
   fun _ _ => 0⟩

/-- A store with no prints at all. -/
def emptyStore : StoreModel := ⟨fun _ => [], fun _ _ => none, fun _ _ => 0⟩

end Fprintd

namespace Fprintd

/-- Helper: the claim-state precheck passes for a Claimed-state method
when the caller is the claiming sender and no invocation is in flight. -/
theorem check_claimed_claimed_ok (sess : SessionData) (sender method : String)
    (hreq : get_claim_state_for_invocation method = .claimed)
    (hsender : sess.sender = sender) (hinv : sess.invocation = false) :
    fprint_device_check_claimed (some sess) method sender = none := by
  unfold fprint_device_check_claimed
  rw [hreq]
  simp [hsender, hinv]

/-- Claim C7: Claim on a device that already has a session fails with
AlreadyInUse, whether the existing claim is held by another sender or by
the calling sender itself; a Claimed-state method such as VerifyStart on
an unclaimed device fails with ClaimDevice. -/
theorem C7_claim_state_errors (s : SessionData) (sender : String) :
    fprint_device_check_claimed (some s) "Claim" sender = some .alreadyInUse
    ∧ fprint_device_check_claimed (some s) "Claim" s.sender = some .alreadyInUse
    ∧ fprint_device_check_claimed none "VerifyStart" sender = some .claimDevice := by
  exact ⟨rfl, rfl, rfl⟩

/-- Claim C8: GetDefaultDevice returns the object path of the last device
in the object-manager enumeration order, and fails with NoSuchDevice when
no devices exist. -/
theorem C8_get_default_device (objects : List String) :
    (objects = [] → fprint_manager_get_default_device objects = .error .noSuchDevice)
    ∧ (∀ p, objects.getLast? = some p →
        fprint_manager_get_default_device objects = .ok p) := by
  constructor
  · intro h
    subst h
    rfl
  · intro p hp
    unfold fprint_manager_get_default_device
    rw [hp]

/-- Witness for C8 at concrete inputs: the empty device list fails with
NoSuchDevice and a two-device list returns the second path. -/
theorem C8_get_default_device_witness :
    fprint_manager_get_default_device [] = .error .noSuchDevice
    ∧ fprint_manager_get_default_device ["/Device/0", "/Device/1"] = .ok "/Device/1" :=
  ⟨(C8_get_default_device []).1 rfl,
   (C8_get_default_device ["/Device/0", "/Device/1"]).2 "/Device/1" rfl⟩

/-- Counterexample for C5: with STATE_DIRECTORY = ":/var/a" the code picks
the first entry of the colon-separated list, which is empty, not the first
non-empty entry "/var/a" that the claim requires. -/
theorem C5_counterexample_empty_first_entry :
    get_storage_path (some ":/var/a") = ""
    ∧ get_storage_path_spec (some ":/var/a") = "/var/a"
    ∧ get_storage_path (some ":/var/a") ≠ get_storage_path_spec (some ":/var/a") :=
  ⟨by decide, by decide, by decide⟩

/-- Claim C5 (amended): the backend root is the first entry (empty or not)
of the colon-separated STATE_DIRECTORY value when it contains a colon, the
value itself when it is colon-free and non-empty, and the fixed default
path otherwise (unset or empty). -/
theorem C5_storage_root_choice (state_directory : Option String) :
    get_storage_path state_directory = get_storage_path_amended state_directory := by
  match state_directory with
  | none => rfl
  | some path =>
      unfold get_storage_path get_storage_path_amended
      cases h : strchr_colon path
      · by_cases hp : path = ""
        · subst hp
          decide
        · simp [h, hp]
      · cases hs : strsplit_colon path <;> simp [h, hs]

/-- Claim C1 (code bug): garbage_collect_sort is documented to sort older
prints first, and the spec says the first print in ascending
enrollment-date order is deleted; the comparator returns
julian_b - julian_a, so qsort puts the larger (newer) Julian day first and
try_delete_print deletes the newest remaining device print instead of the
oldest. Evaluated here on two host-unknown device prints of Julian days
100 and 200: the day-200 print is sorted first and deleted. -/
theorem C1_garbage_collect_deletes_newest_print :
    gc_sort [gcPrintOlder, gcPrintNewer] = [gcPrintNewer, gcPrintOlder]
    ∧ (try_delete_print gcDevice true [gcPrintOlder, gcPrintNewer] []).attempted
        = some gcPrintNewer
    ∧ (try_delete_print gcDevice true [gcPrintOlder, gcPrintNewer] []).success = true
    ∧ gcPrintOlder.julian < gcPrintNewer.julian := by
  refine ⟨by decide, by decide, by decide, by decide⟩

/-- Claim C6: a load reports the print absent (-ENOENT, no print) when no
file exists for the identity tuple, and rejects with an error (-EINVAL, no
print) a deserialized print whose finger differs from the requested
finger, whose username differs from the requested user, or which is not
compatible with the device. -/
theorem C6_print_data_load_checks (fs : PrintPath → Option (List Nat))
    (deserialize : List Nat → Option FpPrint) (dev : FpDeviceModel)
    (finger : FpFinger) (username : String) (contents : List Nat) (p : FpPrint) :
    (fs ⟨username, dev.driver, dev.device_id, finger⟩ = none →
      file_storage_print_data_load fs deserialize dev finger username = (-ENOENT, none))
    ∧ (fs ⟨username, dev.driver, dev.device_id, finger⟩ = some contents →
       deserialize contents = some p → p.finger ≠ finger →
       file_storage_print_data_load fs deserialize dev finger username = (-EINVAL, none))
    ∧ (fs ⟨username, dev.driver, dev.device_id, finger⟩ = some contents →
       deserialize contents = some p → p.username ≠ username →
       file_storage_print_data_load fs deserialize dev finger username = (-EINVAL, none))
    ∧ (fs ⟨username, dev.driver, dev.device_id, finger⟩ = some contents →
       deserialize contents = some p → fp_print_compatible p dev = false →
       file_storage_print_data_load fs deserialize dev finger username = (-EINVAL, none)) := by
  refine ⟨?_, ?_, ?_, ?_⟩
  · intro hfs
    unfold file_storage_print_data_load load_from_file
    simp [hfs]
  · intro hfs hds hf
    unfold file_storage_print_data_load load_from_file
    simp [hfs, hds, hf]
  · intro hfs hds hu
    unfold file_storage_print_data_load load_from_file
    by_cases hf : p.finger = finger <;> simp [hfs, hds, hf, hu]
  · intro hfs hds hc
    unfold file_storage_print_data_load load_from_file
    by_cases hf : p.finger = finger <;> by_cases hu : p.username = username <;>
      simp [hfs, hds, hf, hu, hc]

/-- Witness for C6 at concrete inputs: an empty file system reports the
print absent, and a stored blob deserializing to a print for the wrong
finger is rejected with -EINVAL and no print. -/
theorem C6_print_data_load_checks_witness :
    file_storage_print_data_load (fun _ => none) (fun _ => none) gcDevice
      .leftThumb "alice" = (-ENOENT, none)
    ∧ file_storage_print_data_load
        (fun pp => if pp = ⟨"alice", "drv", "dev0", .leftThumb⟩ then some [1] else none)
        (fun b => if b = [1] then some gcPrintNewer else none) gcDevice
        .leftThumb "alice" = (-EINVAL, none) :=
  ⟨(C6_print_data_load_checks (fun _ => none) (fun _ => none) gcDevice
      .leftThumb "alice" [] gcPrintNewer).1 rfl,
   (C6_print_data_load_checks
      (fun pp => if pp = ⟨"alice", "drv", "dev0", .leftThumb⟩ then some [1] else none)
      (fun b => if b = [1] then some gcPrintNewer else none) gcDevice
      .leftThumb "alice" [1] gcPrintNewer).2.1 (by decide) (by decide) (by decide)⟩

/-- Claim C10: deleting a concrete finger that is not among the user's
discovered prints, or deleting all fingers when the user has none, fails
with NoEnrolledPrints, leaves the store unchanged and performs no device
or store deletion. -/
theorem C10_delete_without_enrolled_print (dev : FpDeviceModel) (st : StoreModel)
    (user : String) (finger : FpFinger) :
    (finger ≠ .unknown → finger ∉ st.prints_of user →
      delete_enrolled_fingers dev st user finger = (some .noEnrolledPrints, st, []))
    ∧ (st.prints_of user = [] →
      delete_enrolled_fingers dev st user .unknown = (some .noEnrolledPrints, st, [])) := by
  constructor
  · intro hne hni
    unfold delete_enrolled_fingers
    have h : user_has_print_enrolled st user finger = false := by
      unfold user_has_print_enrolled
      simp [hne, hni]
    simp [h]
  · intro hemp
    unfold delete_enrolled_fingers
    have h : user_has_print_enrolled st user .unknown = false := by
      unfold user_has_print_enrolled
      simp [hemp]
    simp [h]

/-- Witness for C10 at concrete inputs: with an empty store, deleting the
left thumb and deleting all fingers both fail with NoEnrolledPrints and
delete nothing. -/
theorem C10_delete_without_enrolled_print_witness :
    delete_enrolled_fingers gcDevice emptyStore "alice" .leftThumb
      = (some .noEnrolledPrints, emptyStore, [])
    ∧ delete_enrolled_fingers gcDevice emptyStore "alice" .unknown
      = (some .noEnrolledPrints, emptyStore, []) :=
  ⟨(C10_delete_without_enrolled_print gcDevice emptyStore "alice" .leftThumb).1
      (by decide) (by simp [emptyStore]),
   (C10_delete_without_enrolled_print gcDevice emptyStore "alice" .unknown).2 rfl⟩

/-- Helper: VerifyStart("any") by the claiming sender with no action in
progress reduces to the gallery-based finger resolution. -/
theorem verify_start_any_reduction (sess : SessionData) (sender : String)
    (dev : FpDeviceModel) (st : StoreModel)
    (hsender : sess.sender = sender) (hinv : sess.invocation = false) :
    fprint_device_verify_start (some sess) sender .actionNone dev st (some "any")
      = (match load_user_prints st sess.username with
         | [] => .failure .noEnrolledPrints
         | p :: rest =>
             if dev.has_identify ∧ (if rest = [] then p.finger else FpFinger.unknown)
                 = .unknown then
               .identifyStarted (p :: rest) "any"
             else .verifyStarted p (fp_finger_to_name p.finger)) := by
  have hc : fprint_device_check_claimed (some sess) "VerifyStart" sender = none :=
    check_claimed_claimed_ok sess sender "VerifyStart" rfl hsender hinv
  unfold fprint_device_verify_start
  rw [hc]
  have hf : finger_name_to_fp_finger (some "any") = .unknown := by decide
  simp only [can_start_action, hf]
  cases hg : load_user_prints st sess.username with
  | nil => rfl
  | cons p rest =>
      cases rest with
      | nil => simp [fp_finger_to_name]
      | cons q t => simp [fp_finger_to_name]

/-- Claim C2 (amended): for VerifyStart("any") by the claiming sender with
no action in progress, a gallery of at least two enrolled prints on an
identify-capable device starts an Identify across the full per-user
gallery (selecting "any"); a gallery of exactly one print starts a Verify
against that print, reporting its actual finger in VerifyFingerSelected;
an empty gallery fails with NoEnrolledPrints. -/
theorem C2_verify_start_finger_resolution (sess : SessionData) (sender : String)
    (dev : FpDeviceModel) (st : StoreModel) (p : FpPrint)
    (hsender : sess.sender = sender) (hinv : sess.invocation = false) :
    (dev.has_identify = true → 2 ≤ (load_user_prints st sess.username).length →
      fprint_device_verify_start (some sess) sender .actionNone dev st (some "any")
        = .identifyStarted (load_user_prints st sess.username) "any")
    ∧ (load_user_prints st sess.username = [p] → p.finger ≠ .unknown →
      fprint_device_verify_start (some sess) sender .actionNone dev st (some "any")
        = .verifyStarted p (fp_finger_to_name p.finger))
    ∧ (load_user_prints st sess.username = [] →
      fprint_device_verify_start (some sess) sender .actionNone dev st (some "any")
        = .failure .noEnrolledPrints) := by
  rw [verify_start_any_reduction sess sender dev st hsender hinv]
  refine ⟨?_, ?_, ?_⟩
  · intro hid hlen
    cases hg : load_user_prints st sess.username with
    | nil => rw [hg] at hlen; simp at hlen
    | cons a rest =>
        cases rest with
        | nil => rw [hg] at hlen; simp at hlen
        | cons b t => simp [hid]
  · intro hg hpf
    rw [hg]
    simp [hpf]
  · intro hg
    rw [hg]

/-- Counterexample for C2: an identify-capable device with exactly one
enrolled print runs a Verify against that print, not an Identify across
the gallery, so "supports identify and at least one enrolled print implies
Identify" fails at a one-print gallery. -/
theorem C2_counterexample_single_print_runs_verify :
    gcDevice.has_identify = true
    ∧ load_user_prints singlePrintStore aliceSession.username = [singlePrint]
    ∧ fprint_device_verify_start (some aliceSession) ":1.7" .actionNone gcDevice
        singlePrintStore (some "any") = .verifyStarted singlePrint "left-thumb"
    ∧ fprint_device_verify_start (some aliceSession) ":1.7" .actionNone gcDevice
        singlePrintStore (some "any") ≠ .identifyStarted [singlePrint] "any" :=
  ⟨by decide, by decide, by decide, by decide⟩

/-- Witness for C2 at concrete inputs: the two-print gallery identifies,
the one-print gallery verifies against the single print reporting its
finger, and the empty gallery fails with NoEnrolledPrints. -/
theorem C2_verify_start_finger_resolution_witness :
    fprint_device_verify_start (some aliceSession) ":1.7" .actionNone gcDevice
      twoPrintStore (some "any") = .identifyStarted [singlePrint, secondPrint] "any"
    ∧ fprint_device_verify_start (some aliceSession) ":1.7" .actionNone gcDevice
        singlePrintStore (some "any") = .verifyStarted singlePrint
          (fp_finger_to_name singlePrint.finger)
    ∧ fprint_device_verify_start (some aliceSession) ":1.7" .actionNone gcDevice
        emptyStore (some "any") = .failure .noEnrolledPrints := by
  refine ⟨?_, ?_, ?_⟩
  · have h := (C2_verify_start_finger_resolution aliceSession ":1.7" gcDevice
      twoPrintStore singlePrint rfl rfl).1 (by decide) (by decide)
    rw [h]
    decide
  · exact (C2_verify_start_finger_resolution aliceSession ":1.7" gcDevice
      singlePrintStore singlePrint rfl rfl).2.1 (by decide) (by decide)
  · exact (C2_verify_start_finger_resolution aliceSession ":1.7" gcDevice
      emptyStore singlePrint rfl rfl).2.2 (by decide)

/-- Helper: a finger name that is none of the ten anatomical slot names
parses to the Unknown slot. -/
theorem finger_name_to_fp_finger_unrecognized (s : String)
    (hs : s ∉ validFingerNames) :
    finger_name_to_fp_finger (some s) = .unknown := by
  unfold finger_name_to_fp_finger
  by_cases h1 : s = ""
  · simp [h1]
  · by_cases h2 : s = "any"
    · simp [h1, h2]
    · have hfind : validFingers.find? (fun f => FINGERS_NAMES f = s) = none := by
        rw [List.find?_eq_none]
        intro f hf hp
        exact hs (by
          rw [validFingerNames]
          exact List.mem_map.mpr ⟨f, hf, of_decide_eq_true hp⟩)
      simp [h1, h2, hfind]

/-- Claim C9: every finger name outside the ten anatomical slot names
parses to Unknown exactly as "any", the empty string and NULL do;
consequently VerifyStart with such a name behaves exactly as
VerifyStart("any"), while EnrollStart and DeleteEnrolledFinger with the
same name fail with InvalidFingername. -/
theorem C9_unrecognized_finger_name (s : String) (sess : SessionData)
    (sender : String) (act : FprintDeviceAction) (dev : FpDeviceModel)
    (st : StoreModel) (hs : s ∉ validFingerNames)
    (hsender : sess.sender = sender) (hinv : sess.invocation = false) :
    finger_name_to_fp_finger (some s) = .unknown
    ∧ finger_name_to_fp_finger (some "any") = .unknown
    ∧ finger_name_to_fp_finger (some "") = .unknown
    ∧ finger_name_to_fp_finger none = .unknown
    ∧ fprint_device_verify_start (some sess) sender act dev st (some s)
        = fprint_device_verify_start (some sess) sender act dev st (some "any")
    ∧ fprint_device_enroll_start (some sess) sender act dev st (some s)
        = .failure .invalidFingername
    ∧ fprint_device_delete_enrolled_finger (some sess) sender act dev st (some s)
        = .failure .invalidFingername [] := by
  have h1 : finger_name_to_fp_finger (some s) = .unknown :=
    finger_name_to_fp_finger_unrecognized s hs
  have h2 : finger_name_to_fp_finger (some "any") = .unknown := by decide
  refine ⟨h1, h2, by decide, rfl, ?_, ?_, ?_⟩
  · unfold fprint_device_verify_start
    rw [h1, h2]
  · have hc : fprint_device_check_claimed (some sess) "EnrollStart" sender = none :=
      check_claimed_claimed_ok sess sender "EnrollStart" rfl hsender hinv
    unfold fprint_device_enroll_start
    rw [hc, h1]
    rfl
  · have hc : fprint_device_check_claimed (some sess) "DeleteEnrolledFinger" sender
        = none :=
      check_claimed_claimed_ok sess sender "DeleteEnrolledFinger" rfl hsender hinv
    unfold fprint_device_delete_enrolled_finger
    rw [hc, h1]
    rfl

/-- Witness for C9 at the concrete unrecognized name "index-finger": it
parses to Unknown, VerifyStart treats it as "any", and EnrollStart and
DeleteEnrolledFinger reject it with InvalidFingername. -/
theorem C9_unrecognized_finger_name_witness :
    finger_name_to_fp_finger (some "index-finger") = .unknown
    ∧ fprint_device_verify_start (some aliceSession) ":1.7" .actionNone gcDevice
        singlePrintStore (some "index-finger")
      = fprint_device_verify_start (some aliceSession) ":1.7" .actionNone gcDevice
        singlePrintStore (some "any")
    ∧ fprint_device_enroll_start (some aliceSession) ":1.7" .actionNone gcDevice
        singlePrintStore (some "index-finger") = .failure .invalidFingername
    ∧ fprint_device_delete_enrolled_finger (some aliceSession) ":1.7" .actionNone
        gcDevice singlePrintStore (some "index-finger")
      = .failure .invalidFingername [] := by
  have h := C9_unrecognized_finger_name "index-finger" aliceSession ":1.7"
    .actionNone gcDevice singlePrintStore (by decide) rfl rfl
  exact ⟨h.1, h.2.2.2.2.1, h.2.2.2.2.2.1, h.2.2.2.2.2.2⟩

/-- Helper: once the verify-status-reported flag is set, a report call
never clears it. -/
theorem report_verify_status_keeps_flag (m : Bool) (e : Option GErr) :
    (report_verify_status true m e).reported = true := by
  unfold report_verify_status
  cases h : report_done e <;> simp [h]

/-- Helper: with the flag set, a run of report calls emits no done=true
signal. -/
theorem run_reports_flag_set_no_done (evs : List (Bool × Option GErr)) :
    count_done (run_reports true evs).2 = 0 := by
  induction evs with
  | nil => rfl
  | cons ev rest ih =>
      obtain ⟨m, e⟩ := ev
      unfold run_reports
      cases h : report_done e <;>
        simp [report_verify_status, h, count_done, List.countP_cons] <;>
        simpa [count_done] using ih

/-- Helper: from a cleared flag, a run of report calls emits at most one
done=true signal. -/
theorem run_reports_at_most_one_done (evs : List (Bool × Option GErr)) :
    count_done (run_reports false evs).2 ≤ 1 := by
  induction evs with
  | nil => simp [run_reports, count_done]
  | cons ev rest ih =>
      obtain ⟨m, e⟩ := ev
      unfold run_reports
      cases h : report_done e
      · simp [report_verify_status, h, count_done, List.countP_cons]
        simpa [count_done] using ih
      · have h0 := run_reports_flag_set_no_done rest
        simp [report_verify_status, h, count_done, List.countP_cons]
        simpa [count_done] using h0

/-- Claim C3: per verify/identify operation the verify-status-reported
flag goes from false to true exactly on the first done report (which emits
the VerifyStatus signal with done=true); report calls never clear the
flag; once set, later final reports are ignored (emitting nothing), a
post-completion cancellation silently (no warning); the flag is cleared
only by stoppable_action_completed answering a stop or observing a
cancellation; and a run of reports from a cleared flag emits at most one
done=true VerifyStatus signal. -/
theorem C3_verify_status_reported_once (evs : List (Bool × Option GErr))
    (m : Bool) (e : Option GErr) (r : Bool) :
    count_done (run_reports false evs).2 ≤ 1
    ∧ (report_verify_status false m e).reported = report_done e
    ∧ (report_verify_status false m e).emitted
        = some (verify_result_to_name m e, report_done e)
    ∧ (report_verify_status true m e).reported = true
    ∧ (report_done e = true → (report_verify_status true m e).emitted = none)
    ∧ (report_verify_status true m (some .cancelled)).warned = false
    ∧ stoppable_action_completed_flag r true false = false
    ∧ stoppable_action_completed_flag r false true = false
    ∧ stoppable_action_completed_flag r false false = r := by
  refine ⟨run_reports_at_most_one_done evs, ?_, ?_,
    report_verify_status_keeps_flag m e, ?_, ?_, rfl, rfl, rfl⟩
  · unfold report_verify_status
    cases h : report_done e <;> simp [h]
  · unfold report_verify_status
    cases h : report_done e <;> simp [h]
  · intro hd
    unfold report_verify_status
    simp [hd]
  · unfold report_verify_status
    simp [report_done, GErr.isRetry]

/-- Witness for C3 at concrete inputs: a retry report, a final match and a
post-completion cancellation emit exactly one done signal, and the ignored
duplicate final report emits nothing. -/
theorem C3_verify_status_reported_once_witness :
    count_done (run_reports false
      [(false, some .retryGeneral), (true, none), (false, some .cancelled)]).2 ≤ 1
    ∧ (report_verify_status true true none).emitted = none :=
  ⟨(C3_verify_status_reported_once
      [(false, some .retryGeneral), (true, none), (false, some .cancelled)]
      true none true).1,
   (C3_verify_status_reported_once
      [(false, some .retryGeneral), (true, none), (false, some .cancelled)]
      true none true).2.2.2.2.1 rfl⟩

/-- Helper: the settle loop returns at once when its condition fails. -/
theorem settle_loop_exits (s : SettleState) (evs : List SettleEvent)
    (h : (s.timeoutActive && !s.completed) = false) :
    settle_loop s evs = some s := by
  cases evs <;> simp [settle_loop, h]

/-- Helper: from the parked-invocation wait state, the settle loop ends in
the replied state when the device completion comes before the timer, and
in the still-parked state when the timer fires first. -/
theorem settle_loop_first_relevant (evs : List SettleEvent) :
    (first_relevant evs = some .deviceCompleted →
      settle_loop ⟨false, true, true, false⟩ evs = some ⟨true, true, false, true⟩)
    ∧ (first_relevant evs = some .timeoutFired →
      settle_loop ⟨false, true, true, false⟩ evs = some ⟨false, false, true, false⟩) := by
  induction evs with
  | nil => exact ⟨by intro h; simp [first_relevant] at h,
                  by intro h; simp [first_relevant] at h⟩
  | cons e rest ih =>
      constructor
      · intro h
        cases e with
        | deviceCompleted =>
            show settle_loop (settle_step ⟨false, true, true, false⟩ .deviceCompleted)
              rest = _
            exact settle_loop_exits ⟨true, true, false, true⟩ rest rfl
        | timeoutFired => simp [first_relevant, List.find?] at h
        | unrelated =>
            have h' : first_relevant rest = some .deviceCompleted := by
              simpa [first_relevant, List.find?] using h
            exact ih.1 h'
      · intro h
        cases e with
        | deviceCompleted => simp [first_relevant, List.find?] at h
        | timeoutFired =>
            show settle_loop (settle_step ⟨false, true, true, false⟩ .timeoutFired)
              rest = _
            exact settle_loop_exits ⟨false, false, true, false⟩ rest rfl
        | unrelated =>
            have h' : first_relevant rest = some .timeoutFired := by
              simpa [first_relevant, List.find?] using h
            exact ih.2 h'

/-- Claim C4: with a final verify status already reported and the device
operation not yet complete, VerifyStop parks its invocation and waits in a
settle window governed by the 1-second VERIFY_STOP_DEVICE_WAIT timer: when
the device completes before the timer fires, the stop reply is sent
without cancelling; when the timer fires first, the operation is cancelled
and the reply is deferred until the cancellation is observed. -/
theorem C4_verify_stop_settle_window (sess : SessionData) (sender : String)
    (events : List SettleEvent) (hsender : sess.sender = sender)
    (hinv : sess.invocation = false)
    (hrep : sess.verify_status_reported = true) :
    VERIFY_STOP_DEVICE_WAIT = 1
    ∧ (first_relevant events = some .deviceCompleted →
        fprint_device_verify_stop (some sess) sender .verify false false events
          = some .repliedWithoutCancel)
    ∧ (first_relevant events = some .timeoutFired →
        fprint_device_verify_stop (some sess) sender .verify false false events
          = some .cancelledReplyDeferred) := by
  have hc : fprint_device_check_claimed (some sess) "VerifyStop" sender = none :=
    check_claimed_claimed_ok sess sender "VerifyStop" rfl hsender hinv
  refine ⟨rfl, ?_, ?_⟩
  · intro h
    unfold fprint_device_verify_stop
    rw [hc]
    simp only [can_stop_action, hrep]
    rw [(settle_loop_first_relevant events).1 h]
    rfl
  · intro h
    unfold fprint_device_verify_stop
    rw [hc]
    simp only [can_stop_action, hrep]
    rw [(settle_loop_first_relevant events).2 h]
    rfl

/-- Witness for C4 at concrete inputs: with a reported final status, a
schedule where the device completes first replies without cancelling, and
a schedule where the settle timer fires first cancels with a deferred
reply. -/
theorem C4_verify_stop_settle_window_witness :
    fprint_device_verify_stop (some ⟨":1.7", "alice", false, true⟩) ":1.7" .verify
      false false [.unrelated, .deviceCompleted] = some .repliedWithoutCancel
    ∧ fprint_device_verify_stop (some ⟨":1.7", "alice", false, true⟩) ":1.7" .verify
        false false [.unrelated, .timeoutFired, .deviceCompleted]
      = some .cancelledReplyDeferred :=
  ⟨(C4_verify_stop_settle_window ⟨":1.7", "alice", false, true⟩ ":1.7"
      [.unrelated, .deviceCompleted] rfl rfl rfl).2.1 (by decide),
   (C4_verify_stop_settle_window ⟨":1.7", "alice", false, true⟩ ":1.7"
      [.unrelated, .timeoutFired, .deviceCompleted] rfl rfl rfl).2.2 (by decide)⟩

end Fprintd
